import Mathlib

/-!
Verification of the gdown command-line layer (`gdown/__main__.py`).

The development shallowly embeds the two functions the specification's
claims are about:

* `file_size` — conversion of a speed-limit string such as `"10MB"` into a
  byte count.  The Python code runs
  `re.match(r"([0-9]+)(GB|MB|KB|B)", argv)`: a *prefix* match consisting of
  a greedy maximal run of ASCII digits followed by the first alternative of
  `GB|MB|KB|B` that matches, and raises `TypeError` when the match fails.
  Numbers are modelled exactly (as `Nat`), abstracting from the Python
  `float` representation of the result.

* `main` — the CLI driver.  Its pure parts are embedded piecewise: the
  `"-"`-to-stdout output substitution, the url/id target resolution, the
  construction of the `download` / `download_folder` call, and the
  exception-to-exit-code dispatch of its `try/except` ladder.
-/

namespace Gdown

/-- The four size units accepted by `file_size`, i.e. the alternatives of
the regex alternation `GB|MB|KB|B`. -/
inductive SizeUnit
  | B
  | KB
  | MB
  | GB
deriving DecidableEq, Repr

/-- The character sequence of each unit as it appears in the input. -/
def SizeUnit.chars : SizeUnit → List Char
  | .B => ['B']
  | .KB => ['K', 'B']
  | .MB => ['M', 'B']
  | .GB => ['G', 'B']

/-- The binary multiplier applied by `file_size` for each unit
(`size *= 1024` for KB, `1024**2` for MB, `1024**3` for GB). -/
def SizeUnit.multiplier : SizeUnit → Nat
  | .B => 1
  | .KB => 1024
  | .MB => 1024 ^ 2
  | .GB => 1024 ^ 3

/-- Greedy maximal digit run at the front of the input, returning the run
and the remainder: the behaviour of the regex fragment `([0-9]+)` at
position 0 (the following alternation contains no digits, so backtracking
into the digit run can never succeed and greedy-maximal is exact). -/
def digitSpan : List Char → List Char × List Char
  | [] => ([], [])
  | c :: rest =>
    if c.isDigit then (c :: (digitSpan rest).1, (digitSpan rest).2)
    else ([], c :: rest)

/-- The regex alternation `(GB|MB|KB|B)` applied at the head of the
remainder: alternatives are tried left to right and only a prefix needs to
match (`re.match` does not anchor the end of the string). -/
def matchUnit (s : List Char) : Option SizeUnit :=
  if s.take 2 = ['G', 'B'] then some .GB
  else if s.take 2 = ['M', 'B'] then some .MB
  else if s.take 2 = ['K', 'B'] then some .KB
  else if s.take 1 = ['B'] then some .B
  else none

/-- Numeric value of a digit run, as computed by Python `int`/`float` on a
digit string (exact integer semantics). -/
def digitsToNat (ds : List Char) : Nat :=
  ds.foldl (fun a c => 10 * a + (c.toNat - 48)) 0

/-- Core of `file_size` on the character sequence of a non-`None` argument:
`.error ()` models the `raise TypeError` taken when the regex does not
match; otherwise the digit value is scaled by the unit's multiplier. -/
def file_size_chars (s : List Char) : Except Unit Nat :=
  if (digitSpan s).1 = [] then .error ()
  else
    match matchUnit (digitSpan s).2 with
    | none => .error ()
    | some u => .ok (digitsToNat (digitSpan s).1 * SizeUnit.multiplier u)

/-- `file_size(argv)`: `None` is passed through (the body is guarded by
`if argv is not None`), any other argument is parsed. -/
def file_size : Option String → Except Unit (Option Nat)
  | none => .ok none
  | some s => (file_size_chars s.data).map some

/-! ### Basic lemmas about `digitSpan` and `matchUnit` -/

theorem digitSpan_append_eq (s : List Char) :
    (digitSpan s).1 ++ (digitSpan s).2 = s := by
  induction s with
  | nil => rfl
  | cons c rest ih =>
    by_cases hc : c.isDigit <;> simp [digitSpan, hc, ih]

theorem digitSpan_digits (s : List Char) :
    ∀ c ∈ (digitSpan s).1, c.isDigit = true := by
  induction s with
  | nil => intro c hc; simp [digitSpan] at hc
  | cons a rest ih =>
    intro c hc
    by_cases ha : a.isDigit
    · simp [digitSpan, ha] at hc
      rcases hc with hc | hc
      · subst hc; exact ha
      · exact ih c hc
    · simp [digitSpan, ha] at hc

theorem digitSpan_of_digits_append (ds : List Char)
    (hd : ∀ c ∈ ds, c.isDigit = true) (c : Char) (hc : c.isDigit = false)
    (rest : List Char) :
    digitSpan (ds ++ c :: rest) = (ds, c :: rest) := by
  induction ds with
  | nil => simp [digitSpan, hc]
  | cons a as ih =>
    have ha : a.isDigit = true := hd a (by simp)
    have ih2 := ih (fun x hx => hd x (by simp [hx]))
    simp [digitSpan, ha, ih2]

theorem matchUnit_chars_append (u : SizeUnit) (rest : List Char) :
    matchUnit (SizeUnit.chars u ++ rest) = some u := by
  cases u <;> simp [matchUnit, SizeUnit.chars, List.take]

theorem matchUnit_inv {r : List Char} {u : SizeUnit}
    (h : matchUnit r = some u) : ∃ rest, r = SizeUnit.chars u ++ rest := by
  unfold matchUnit at h
  split_ifs at h with h1 h2 h3 h4
  · cases h
    exact ⟨r.drop 2, by rw [SizeUnit.chars, ← h1, List.take_append_drop]⟩
  · cases h
    exact ⟨r.drop 2, by rw [SizeUnit.chars, ← h2, List.take_append_drop]⟩
  · cases h
    exact ⟨r.drop 2, by rw [SizeUnit.chars, ← h3, List.take_append_drop]⟩
  · cases h
    exact ⟨r.drop 1, by rw [SizeUnit.chars, ← h4, List.take_append_drop]⟩

theorem sizeUnit_head_not_digit (u : SizeUnit) :
    ∃ c tail, SizeUnit.chars u = c :: tail ∧ c.isDigit = false := by
  cases u
  · exact ⟨'B', [], rfl, by decide⟩
  · exact ⟨'K', ['B'], rfl, by decide⟩
  · exact ⟨'M', ['B'], rfl, by decide⟩
  · exact ⟨'G', ['B'], rfl, by decide⟩

/-! ### Claims about `file_size` -/

/-- Claim C1: for every speed-limit string of the form one-or-more digits
followed by a unit (`B`, `KB`, `MB` or `GB`), `file_size` returns the digit
value multiplied by the unit's binary multiplier
(1, 1024, 1024², 1024³ respectively). -/
theorem file_size_wellformed (ds : List Char) (u : SizeUnit)
    (hne : ds ≠ []) (hd : ∀ c ∈ ds, c.isDigit = true) :
    file_size (some (String.mk (ds ++ SizeUnit.chars u))) =
      .ok (some (digitsToNat ds * SizeUnit.multiplier u)) := by
  obtain ⟨c, tail, hcu, hcd⟩ := sizeUnit_head_not_digit u
  have hspan : digitSpan (ds ++ SizeUnit.chars u) = (ds, SizeUnit.chars u) := by
    rw [hcu]
    exact digitSpan_of_digits_append ds hd c hcd tail
  have hmu : matchUnit (SizeUnit.chars u) = some u := by
    have := matchUnit_chars_append u []
    simpa using this
  simp [file_size, file_size_chars, hspan, hne, hmu, Except.map]

/-- Claim C1 witness: `file_size("10MB")` is `10 * 1024 * 1024` bytes/sec. -/
theorem file_size_wellformed_witness :
    file_size (some "10MB") = .ok (some (10 * 1024 * 1024)) := by
  have h := file_size_wellformed ['1', '0'] .MB (by decide) (by decide)
  exact h

/-- Claim C9: `file_size(None)` returns `None` without raising. -/
theorem file_size_none : file_size none = .ok none := rfl

/-- Claim C4 counterexample: the input `"10MBx"` is not of the form digits
followed by exactly one unit (nothing may follow the unit), yet `file_size`
accepts it and returns `10 * 1024²` — `re.match` only anchors the start of
the string, so trailing characters are ignored rather than rejected. -/
theorem file_size_accepts_trailing_junk :
    (¬ ∃ (ds : List Char) (u : SizeUnit), ds ≠ [] ∧
        (∀ c ∈ ds, c.isDigit = true) ∧
        ("10MBx").data = ds ++ SizeUnit.chars u) ∧
    file_size (some "10MBx") = .ok (some 10485760) := by
  constructor
  · rintro ⟨ds, u, -, -, h⟩
    have hx : ("10MBx").data = ['1', '0', 'M', 'B', 'x'] := rfl
    rw [hx] at h
    have hrev := congrArg List.reverse h
    rw [List.reverse_append] at hrev
    cases u <;> simp [SizeUnit.chars] at hrev
  · rfl

/-- Claim C4 amended: `file_size` raises `TypeError` exactly on the strings
that do not BEGIN with one-or-more digits followed by one of the units `B`,
`KB`, `MB`, `GB`; characters after the unit are ignored (prefix match), so
success is not equivalent to the whole string having that form. -/
theorem file_size_error_iff (s : List Char) :
    file_size_chars s = .error () ↔
      ¬ ∃ (ds : List Char) (u : SizeUnit) (rest : List Char),
          s = ds ++ SizeUnit.chars u ++ rest ∧ ds ≠ [] ∧
          ∀ c ∈ ds, c.isDigit = true := by
  constructor
  · rintro h ⟨ds, u, rest, hs, hne, hd⟩
    obtain ⟨c, tail, hcu, hcd⟩ := sizeUnit_head_not_digit u
    have hspan : digitSpan s = (ds, SizeUnit.chars u ++ rest) := by
      rw [hs, hcu, List.append_assoc]
      exact digitSpan_of_digits_append ds hd c hcd (tail ++ rest)
    rw [file_size_chars, hspan] at h
    simp [hne, matchUnit_chars_append] at h
  · intro hnex
    by_cases hd1 : (digitSpan s).1 = []
    · simp [file_size_chars, hd1]
    · rcases hm : matchUnit (digitSpan s).2 with _ | u
      · simp [file_size_chars, hd1, hm]
      · exfalso
        obtain ⟨rest, hr⟩ := matchUnit_inv hm
        refine hnex ⟨(digitSpan s).1, u, rest, ?_, hd1, digitSpan_digits s⟩
        rw [List.append_assoc, ← hr, digitSpan_append_eq]

/-! ### The `main` driver

The argparse result is embedded as a record of the parsed options; the pure
decisions `main` takes before and after the download call are embedded as
functions of it. -/

/-- The parsed command-line arguments of `main` (one field per
`add_argument` call, `--version` excepted since it exits the parser). -/
structure Args where
  url_or_id : String
  output : Option String
  quiet : Bool
  fuzzy : Bool
  id : Bool
  proxy : Option String
  speed : Option Nat
  no_cookies : Bool
  no_check_certificate : Bool
  continue_ : Bool
  folder : Bool
  remaining_ok : Bool
  format : Option String
  user_agent : Option String

/-- Destination handed to the download layer: either the process's standard
output byte stream (`sys.stdout.buffer`), a path string, or nothing. -/
inductive OutputDest
  | stdoutBuffer
  | path (s : String)
  | noOutput
deriving DecidableEq, Repr

/-- `if args.output == "-": args.output = sys.stdout.buffer` — the dash is
replaced by the stdout byte stream, everything else passes through. -/
def resolveOutput (o : Option String) : OutputDest :=
  match o with
  | none => .noOutput
  | some s => if s = "-" then .stdoutBuffer else .path s

/-- Decidable check that one character list is an initial segment of
another. -/
def hasPfx : List Char → List Char → Bool
  | [], _ => true
  | _ :: _, [] => false
  | c :: cs, d :: ds => c = d && hasPfx cs ds

/-- The test `re.match("^https?://.*", args.url_or_id)`: the string starts
with `http://` or `https://` (`.*` matches the empty string, so nothing is
required after the scheme). -/
def isHttpUrl (s : String) : Bool :=
  hasPfx ("http://").data s.data || hasPfx ("https://").data s.data

/-- The `url` / `id` pair `main` computes from `args.id` and
`args.url_or_id` and passes to the download layer. -/
structure Target where
  url : Option String
  id : Option String
deriving DecidableEq, Repr

/-- Lines 154–169 of `__main__.py`: with `--id` the input is the id
verbatim; otherwise a URL-shaped input becomes the url and anything else is
the id verbatim. -/
def resolveTarget (idFlag : Bool) (url_or_id : String) : Target :=
  if idFlag then ⟨none, some url_or_id⟩
  else if isHttpUrl url_or_id then ⟨some url_or_id, none⟩
  else ⟨none, some url_or_id⟩

/-- Keyword arguments of the `download_folder(...)` call in `main`. -/
structure FolderCall where
  url : Option String
  id : Option String
  output : OutputDest
  quiet : Bool
  proxy : Option String
  speed : Option Nat
  use_cookies : Bool
  verify : Bool
  remaining_ok : Bool
  user_agent : Option String
  resume : Bool
deriving DecidableEq, Repr

/-- Keyword arguments of the `download(...)` call in `main`. -/
structure FileCall where
  url : Option String
  output : OutputDest
  quiet : Bool
  proxy : Option String
  speed : Option Nat
  use_cookies : Bool
  verify : Bool
  id : Option String
  fuzzy : Bool
  resume : Bool
  format : Option String
  user_agent : Option String
deriving DecidableEq, Repr

/-- The download invocation `main` makes: `download_folder` when
`--folder` is set, `download` otherwise. -/
inductive Invocation
  | folderCall (c : FolderCall)
  | fileCall (c : FileCall)
deriving DecidableEq, Repr

/-- Lines 151–200 of `__main__.py`: resolve the output and the target and
build the call to the download layer with each argument forwarded. -/
def buildInvocation (a : Args) : Invocation :=
  let out := resolveOutput a.output
  let t := resolveTarget a.id a.url_or_id
  if a.folder then
    .folderCall ⟨t.url, t.id, out, a.quiet, a.proxy, a.speed, !a.no_cookies,
      !a.no_check_certificate, a.remaining_ok, a.user_agent, a.continue_⟩
  else
    .fileCall ⟨t.url, out, a.quiet, a.proxy, a.speed, !a.no_cookies,
      !a.no_check_certificate, t.id, a.fuzzy, a.continue_, a.format,
      a.user_agent⟩

/-- The `remaining_ok` keyword of a folder invocation (`none` for a
single-file invocation, which has no such keyword). -/
def Invocation.remainingOk : Invocation → Option Bool
  | .folderCall c => some c.remaining_ok
  | .fileCall _ => none

/-! ### Error formatting and the `try/except` ladder -/

/-- Whitespace split of a string's characters into words, as `textwrap`
chunks text with collapsed whitespace (the accumulator holds the current
word reversed). -/
def splitWordsAux : List Char → List Char → List (List Char)
  | [], [] => []
  | [], cur => [cur.reverse]
  | c :: rest, cur =>
    if c.isWhitespace then
      if cur = [] then splitWordsAux rest []
      else cur.reverse :: splitWordsAux rest []
    else splitWordsAux rest (c :: cur)

/-- Words of a string, whitespace-separated. -/
def splitWords (s : List Char) : List (List Char) := splitWordsAux s []

/-- Greedy line filling at a given width: the running line takes the next
word when the joined length still fits, else the line is emitted. -/
def fillAux (width : Nat) : List (List Char) → List Char → List (List Char)
  | [], cur => [cur]
  | w :: ws, cur =>
    if cur.length + 1 + w.length ≤ width then
      fillAux width ws (cur ++ ' ' :: w)
    else cur :: fillAux width ws w

/-- Greedy fill of a word list into lines of at most `width` characters. -/
def fillLines (width : Nat) : List (List Char) → List (List Char)
  | [] => []
  | w :: ws => fillAux width ws w

/-- Right-fold string concatenation of a line list with `"\n"` separators,
as `"\n".join(...)`. -/
def joinWith (sep : String) : List String → String
  | [] => ""
  | [x] => x
  | x :: y :: xs => x ++ sep ++ joinWith sep (y :: xs)

/-- Model of `indent("\n".join(textwrap.wrap(str(e))), prefix="\t")` as
`main` formats every wrapped error message: greedy wrap at `textwrap`'s
default width of 70 columns on whitespace, then a tab before each line
(the model places an over-long word on its own line instead of breaking it
mid-word, a case no message below reaches). -/
def wrapIndent (msg : String) : String :=
  joinWith "\n"
    ((fillLines 70 (splitWords msg.data)).map
      (fun l => "\t" ++ String.mk l))

/-- The exceptions distinguished by the `try/except` ladder of `main`:
the three typed failures it names, and `other` for every remaining
`Exception` (caught by the final `except Exception` arm). -/
inductive Exc
  | fileURLRetrieval (msg : String)
  | folderContentsMaximumLimit (msg : String)
  | proxyError (msg : String)
  | other (msg : String)

/-- What one `except` arm does: the message it prints to `sys.stderr` and
the process exit code it passes to `sys.exit`. -/
structure HandlerResult where
  stderrMsg : String
  exitCode : Nat
deriving DecidableEq, Repr

/-- Lines 201–226 of `__main__.py`: the four `except` arms.
`FileURLRetrievalError` is printed as `print(e)` — the error's own string,
unaltered; the other three wrap-and-indent the message inside a fixed
template; every arm exits with code 1. -/
def handleException : Exc → HandlerResult
  | .fileURLRetrieval m => ⟨m, 1⟩
  | .folderContentsMaximumLimit m =>
      ⟨"Failed to retrieve folder contents:\n\n" ++
        (wrapIndent m ++
          "\n\nYou can use `--remaining-ok` option to ignore this error."),
        1⟩
  | .proxyError m =>
      ⟨"Failed to use proxy:\n\n" ++
        (wrapIndent m ++ "\n\nPlease check your proxy settings."), 1⟩
  | .other m =>
      ⟨"Error:\n\n" ++
        (wrapIndent m ++
          "\n\nTo report issues, please visit https://github.com/wkentaro/gdown/issues."),
        1⟩

/-- Outcome of a `main` run around the download call. -/
inductive MainResult
  | success
  | failure (r : HandlerResult)

/-- The `try/except` skeleton of `main`: a download outcome (normal return
or a raised exception) either returns normally or is dispatched to the
matching `except` arm — no exception escapes the ladder. -/
def runMain (outcome : Except Exc Unit) : MainResult :=
  match outcome with
  | .ok () => .success
  | .error e => .failure (handleException e)

/-! ### Claims about `main` -/

theorem append_ne_of_head_ne (x y s t : String) (a b : Char)
    (xs ys : List Char) (hx : x.data = a :: xs) (hy : y.data = b :: ys)
    (hne : a ≠ b) : x ++ s ≠ y ++ t := by
  intro h
  have h2 := congrArg String.data h
  rw [String.data_append, String.data_append, hx, hy] at h2
  simp only [List.cons_append] at h2
  injection h2 with h3 _
  exact hne h3

/-- Claim C3: with `--id` set the input string becomes the id verbatim and
the url is unset; otherwise a string matching the http(s) URL pattern
becomes the url with the id unset, and any other string becomes the id
verbatim. -/
theorem resolveTarget_cases (s : String) :
    resolveTarget true s = ⟨none, some s⟩ ∧
    (isHttpUrl s = true → resolveTarget false s = ⟨some s, none⟩) ∧
    (isHttpUrl s = false → resolveTarget false s = ⟨none, some s⟩) := by
  refine ⟨rfl, ?_, ?_⟩ <;> intro h <;> simp [resolveTarget, h]

/-- Claim C3 witness: a URL-shaped input is passed as the url, a bare id
as the id. -/
theorem resolveTarget_cases_witness :
    resolveTarget false "https://drive.example/uc" =
      ⟨some "https://drive.example/uc", none⟩ ∧
    resolveTarget false "1df-abc" = ⟨none, some "1df-abc"⟩ :=
  ⟨(resolveTarget_cases "https://drive.example/uc").2.1 (by decide),
   (resolveTarget_cases "1df-abc").2.2 (by decide)⟩

/-- Claim C8: an output argument that is exactly `"-"` is replaced by the
process's standard-output byte stream; a missing output stays missing and
every other string passes through unchanged as a path. -/
theorem resolveOutput_cases :
    resolveOutput (some "-") = .stdoutBuffer ∧
    resolveOutput none = .noOutput ∧
    ∀ s : String, s ≠ "-" → resolveOutput (some s) = .path s := by
  refine ⟨rfl, rfl, ?_⟩
  intro s h
  simp [resolveOutput, h]

/-- Claim C8 witness: an ordinary file name is passed through unchanged. -/
theorem resolveOutput_cases_witness :
    resolveOutput (some "out.zip") = OutputDest.path "out.zip" :=
  resolveOutput_cases.2.2 "out.zip" (by decide)

/-- Claim C2 counterexample: the exit codes of the three typed failure
branches are the same (every arm runs `sys.exit(1)`), so they are not
pairwise different as the claim states. -/
theorem cli_exit_codes_not_distinct :
    (handleException (.fileURLRetrieval "quota exceeded")).exitCode =
      (handleException (.proxyError "proxy down")).exitCode ∧
    (handleException (.proxyError "proxy down")).exitCode =
      (handleException
        (.folderContentsMaximumLimit "too many files")).exitCode :=
  ⟨rfl, rfl⟩

/-- Claim C2 amended: the three failure kinds reaching the CLI layer are
each handled by their own branch of `main` producing distinct messages
(shown here on a common underlying error string), but all three are mapped
to the same process exit code 1, not to pairwise different exit codes. -/
theorem cli_error_branches (m : String) :
    (handleException (.fileURLRetrieval m)).exitCode = 1 ∧
    (handleException (.folderContentsMaximumLimit m)).exitCode = 1 ∧
    (handleException (.proxyError m)).exitCode = 1 ∧
    ((handleException (.fileURLRetrieval "boom")).stderrMsg ≠
        (handleException (.folderContentsMaximumLimit "boom")).stderrMsg ∧
      (handleException (.fileURLRetrieval "boom")).stderrMsg ≠
        (handleException (.proxyError "boom")).stderrMsg ∧
      (handleException (.folderContentsMaximumLimit "boom")).stderrMsg ≠
        (handleException (.proxyError "boom")).stderrMsg) :=
  ⟨rfl, rfl, rfl, by decide, by decide, by decide⟩

/-- Claim C5: a `ProxyError` is handled by its own branch, distinct from
the generic-exception branch: the message is the proxy template ending in
the `Please check your proxy settings.` guidance, differs from the generic
branch's message on the same error string, and the branch terminates with
exit code 1 (no retry — the handler is a straight-line exit). -/
theorem proxy_error_branch (m : String) :
    (handleException (.proxyError m)).exitCode = 1 ∧
    (handleException (.proxyError m)).stderrMsg =
      "Failed to use proxy:\n\n" ++
        (wrapIndent m ++ "\n\nPlease check your proxy settings.") ∧
    (handleException (.proxyError m)).stderrMsg ≠
      (handleException (.other m)).stderrMsg := by
  refine ⟨rfl, rfl, ?_⟩
  exact append_ne_of_head_ne _ _ _ _ 'F' 'E' _ _ rfl rfl (by decide)

/-- Claim C7: the `FileURLRetrievalError` branch prints the error's own
string content unaltered (it runs `print(e)`, with no wrapping or
template), so the service's explanation carried in the error reaches the
output. -/
theorem file_url_retrieval_branch (m : String) :
    (handleException (.fileURLRetrieval m)).stderrMsg = m ∧
    (handleException (.fileURLRetrieval m)).exitCode = 1 :=
  ⟨rfl, rfl⟩

/-- Claim C6: the `FolderContentsMaximumLimitError` branch terminates the
run with exit code 1 and its message contains the `--remaining-ok`
override; and when `--folder` is set, the command line's `remaining-ok`
flag is forwarded to `download_folder` unchanged. -/
theorem folder_limit_branch (m : String) (a : Args) (hf : a.folder = true) :
    (handleException (.folderContentsMaximumLimit m)).exitCode = 1 ∧
    List.IsInfix ("--remaining-ok").data
      ((handleException (.folderContentsMaximumLimit m)).stderrMsg).data ∧
    (buildInvocation a).remainingOk = some a.remaining_ok := by
  refine ⟨rfl, ?_, ?_⟩
  · have h1 : List.IsInfix ("--remaining-ok").data
        ("\n\nYou can use `--remaining-ok` option to ignore this error.").data := by
      decide
    have hdata :
        ((handleException (.folderContentsMaximumLimit m)).stderrMsg).data =
          (("Failed to retrieve folder contents:\n\n").data ++
              (wrapIndent m).data) ++
            ("\n\nYou can use `--remaining-ok` option to ignore this error.").data := by
      show ("Failed to retrieve folder contents:\n\n" ++
          (wrapIndent m ++
            "\n\nYou can use `--remaining-ok` option to ignore this error.")).data = _
      rw [String.data_append, String.data_append, List.append_assoc]
    rw [hdata]
    exact h1.trans (List.suffix_append _ _).isInfix
  · simp [buildInvocation, hf, Invocation.remainingOk]

/-- Claim C6 witness: a concrete folder invocation forwards
`remaining_ok = true`, and the branch facts hold at a concrete message. -/
theorem folder_limit_branch_witness :
    (buildInvocation
      ⟨"1df-abc", none, false, false, false, none, none, false, false,
        false, true, true, none, none⟩).remainingOk = some true :=
  (folder_limit_branch "folder has too many files" _ rfl).2.2

/-- Claim C10: every exception raised by the download call — the three
typed failures and any other `Exception` — is caught by the `try/except`
ladder of `main` and turned into a handled failure with exit code 1; none
propagates out of `runMain`. -/
theorem main_catches_all (e : Exc) :
    runMain (.error e) = .failure (handleException e) ∧
    (handleException e).exitCode = 1 := by
  refine ⟨rfl, ?_⟩
  cases e <;> rfl

end Gdown
